import Mathlib

/-!
Verification development for the otel-go-instrumentation demo service
(Go application in src/app/main.go, the earlier single-file variant in
src/unnamed/part_001, and the nginx entrypoint script in
src/unnamed/part_000).

The embedding is shallow: each Go handler becomes a pure Lean function from
its inputs (query parameters, random draws, channel state, environment
variables) to the observable effects the source produces (span data, state
updates, HTTP response).  Random draws rand.Intn(n) are modelled as a natural
number argument together with the hypothesis that it is below n; the Go
float64/float32 random value used only for branching in callExternalAPI is
modelled as a rational number.
-/

/-- JSON values appearing in the handlers' response bodies: the handlers only
ever marshal strings and int64 numbers. -/
inductive JVal where
  | str (s : String)
  | int (n : Int)
deriving DecidableEq

/-- Observable part of an HTTP response: status code written by WriteHeader,
the Content-Type header, and the marshalled JSON object as an ordered list of
key/value pairs. -/
structure Response where
  status : Nat
  contentType : Option String
  body : List (String × JVal)
deriving DecidableEq

/-- Span status as set by span.SetStatus (codes.Unset / codes.Ok /
codes.Error with a message). -/
inductive SpanStatus where
  | unset
  | statusOk
  | statusError (msg : String)
deriving DecidableEq

/-- Observable effects on the span a handler starts: its name, the status set
on it, the errors recorded via RecordError, and the events added via
AddEvent. -/
structure SpanData where
  name : String
  status : SpanStatus
  recordedErrors : List String
  events : List String
deriving DecidableEq

/-- The Content-Type value every JSON handler sets (src/app/main.go). -/
def jsonContentType : String := "application/json; charset=utf-8"

/-- Shared mutable state of the application that the addItem/removeItem frame
claim is about: the items up/down counter's running value, the
activeConnections integer, the currentMemoryUsage float (modelled as a
rational), and the fan-speed channel (buffer contents plus closed flag). -/
structure AppState where
  itemsCounterValue : Int
  activeConnections : Int
  currentMemoryUsage : Rat
  fanSpeedBuffer : List Int
  fanSpeedClosed : Bool
deriving DecidableEq

/-- Embeds getHello (src/app/main.go lines 499-531; same response logic in
src/unnamed/part_001 lines 78-90).  Input is the result of
r.URL.Query().Get("name"), which is the empty string when the parameter is
absent.  Attribute setting and the requestCounter update are not recorded
here; the child span childHello is the second SpanData. -/
def getHello (nameParam : String) : SpanData × SpanData × Response :=
  let name := if nameParam = "" then "World" else nameParam
  ({ name := "getHello", status := .unset, recordedErrors := [],
     events := ["Hello with AddEvent"] },
   { name := "childHello", status := .unset, recordedErrors := [],
     events := ["Hello with AddEvent from child"] },
   { status := 200, contentType := some jsonContentType,
     body := [("message", .str ("Hello, " ++ name ++ "!"))] })

/-- Embeds getError (src/app/main.go lines 549-566): starts span "getError",
sets status Error "Internal Server Error", records the error
"err: Internal Server Error", and writes a 500 JSON response. -/
def getError : SpanData × Response :=
  ({ name := "getError", status := .statusError "Internal Server Error",
     recordedErrors := ["err: Internal Server Error"], events := [] },
   { status := 500, contentType := some jsonContentType,
     body := [("error", .str "Internal Server Error"),
              ("message", .str "This is a sample 500 error endpoint for testing OpenTelemetry")] })

/-- Embeds addItem (src/app/main.go lines 568-585): when the itemsCounter
instrument is non-nil it adds +1 to it; no other state is touched; the
response is the fixed 200 JSON body. -/
def addItem (hasItemsCounter : Bool) (s : AppState) : AppState × SpanData × Response :=
  ({ s with itemsCounterValue :=
      if hasItemsCounter then s.itemsCounterValue + 1 else s.itemsCounterValue },
   { name := "addItem", status := .unset, recordedErrors := [], events := [] },
   { status := 200, contentType := some jsonContentType,
     body := [("message", .str "Item added successfully"),
              ("action", .str "increment")] })

/-- Embeds removeItem (src/app/main.go lines 587-604): when the itemsCounter
instrument is non-nil it adds -1 to it; no other state is touched; the
response is the fixed 200 JSON body. -/
def removeItem (hasItemsCounter : Bool) (s : AppState) : AppState × SpanData × Response :=
  ({ s with itemsCounterValue :=
      if hasItemsCounter then s.itemsCounterValue - 1 else s.itemsCounterValue },
   { name := "removeItem", status := .unset, recordedErrors := [], events := [] },
   { status := 200, contentType := some jsonContentType,
     body := [("message", .str "Item removed successfully"),
              ("action", .str "decrement")] })

/-- Models the expression int64(1500 + rand.Intn(1000)) used by the
getCPUFanSpeed closure (src/app/main.go lines 861-865) and inlined in the
closed-channel and empty-channel branches of getCPUFanSpeedHandler; the draw
r of rand.Intn(1000) satisfies r < 1000. -/
def fanSpeedSample (r : Nat) : Int := 1500 + (r : Int)

/-- Outcome of the non-blocking select on fanSpeedSubsciption in
getCPUFanSpeedHandler: a value was received, the channel was closed, or the
channel was empty (the default case). -/
inductive ChanRecv where
  | received (v : Int)
  | closedChan
  | empty
deriving DecidableEq

/-- Embeds getCPUFanSpeedHandler (src/app/main.go lines 606-644): returns the
fanSpeed it computed together with the 200 JSON response carrying it.  The
argument r is the rand.Intn(1000) draw used in the closed and empty
branches. -/
def getCPUFanSpeedHandler (recv : ChanRecv) (r : Nat) : Int × Response :=
  let fanSpeed : Int :=
    match recv with
    | .received v => v
    | .closedChan => fanSpeedSample r
    | .empty => fanSpeedSample r
  (fanSpeed,
   { status := 200, contentType := some jsonContentType,
     body := [("fanSpeed", .int fanSpeed),
              ("unit", .str "rpm"),
              ("message", .str "Current CPU fan speed")] })

/-- Events on the fanSpeedSubsciption channel as performed by the producer
goroutine: sends of fan-speed values and the deferred close. -/
inductive FanEvent where
  | send (v : Int)
  | closeChan
deriving DecidableEq

/-- Embeds the producer goroutine's loop (src/app/main.go lines 871-875, same
loop in lines 347-351 of the first variant): for idx := 0; idx < 5; idx++ it
sends one fan-speed value per iteration.  speeds idx is the value
getCPUFanSpeed returned on iteration idx; the sleep has no observable
effect on the channel. -/
def producerLoopEvents (speeds : Nat → Int) (idx : Nat) : List FanEvent :=
  if _h : idx < 5 then .send (speeds idx) :: producerLoopEvents speeds (idx + 1)
  else []
termination_by 5 - idx
decreasing_by omega

/-- Full channel trace of the producer goroutine (src/app/main.go lines
868-876): the loop's sends followed by the deferred close(fanSpeedSubsciption)
that runs when the goroutine returns. -/
def fanProducerTrace (speeds : Nat → Int) : List FanEvent :=
  producerLoopEvents speeds 0 ++ [.closeChan]

/-- Embeds simulateConnect's state update (src/app/main.go lines 747-767):
activeConnections++ under the mutex, with no clamp. -/
def simulateConnectStep (s : Int) : Int := s + 1

/-- Embeds simulateDisconnect's state update (src/app/main.go lines 769-791):
decrement only when activeConnections > 0. -/
def simulateDisconnectStep (s : Int) : Int := if s > 0 then s - 1 else s

/-- The random change int64(rand.Intn(16) - 5) drawn by one iteration of the
background connection simulator (src/app/main.go line 937); the draw r of
rand.Intn(16) satisfies r < 16. -/
def connSimChange (r : Nat) : Int := (r : Int) - 5

/-- Embeds one iteration of the background connection simulator goroutine
(src/app/main.go lines 932-948): add the random change, then clamp below at 0
and above at 100, in that order. -/
def connSimStep (s : Int) (r : Nat) : Int :=
  let afterChange := s + connSimChange r
  let clampedLow := if afterChange < 0 then 0 else afterChange
  if clampedLow > 100 then 100 else clampedLow

/-- States of activeConnections reachable from the zero-initialised variable
via the three kinds of update the program performs: the simulateConnect
handler, the simulateDisconnect handler, and an iteration of the background
simulator with a rand.Intn(16) draw. -/
inductive ReachableConn : Int → Prop where
  | start : ReachableConn 0
  | connect {s : Int} : ReachableConn s → ReachableConn (simulateConnectStep s)
  | disconnect {s : Int} : ReachableConn s → ReachableConn (simulateDisconnectStep s)
  | background {s : Int} (r : Nat) : r < 16 → ReachableConn s → ReachableConn (connSimStep s r)

/-- time.Millisecond in nanoseconds: Go durations are int64 nanosecond
counts. -/
def millisecondNs : Int := 1000000

/-- Go's Duration.Milliseconds(): the nanosecond count divided by 1e6
(truncating; all durations here are nonnegative, so Int.ediv agrees). -/
def durationMilliseconds (d : Int) : Int := d / millisecondNs

/-- The latency in milliseconds chosen by callExternalAPI's three-tier branch
(src/app/main.go lines 657-668): randValue = rand.Float32() modelled as a
rational; r1, r2, r3 are the draws of rand.Intn(950), rand.Intn(4000),
rand.Intn(5000) used in the branch taken. -/
def externalAPILatencyMs (randValue : Rat) (r1 r2 r3 : Nat) : Nat :=
  if randValue < 1/2 then 50 + r1
  else if randValue < 4/5 then 1000 + r2
  else 5000 + r3

/-- Embeds callExternalAPI (src/app/main.go lines 646-711): returns the chosen
apiLatency duration (in nanoseconds) and the 200 JSON response whose
duration_ms field is apiLatency.Milliseconds(). -/
def callExternalAPI (randValue : Rat) (r1 r2 r3 : Nat) : Int × Response :=
  let apiLatency : Int := (externalAPILatencyMs randValue r1 r2 r3 : Int) * millisecondNs
  (apiLatency,
   { status := 200, contentType := some jsonContentType,
     body := [("message", .str "External API call completed successfully"),
              ("duration_ms", .int (durationMilliseconds apiLatency)),
              ("status", .str "success")] })

/-- os.Getenv: the empty string stands for an unset variable, so the
environment is an Option String and Getenv collapses none to "". -/
def osGetenv (env : Option String) : String := env.getD ""

/-- The error message both exporter constructors return when OTLP_ENDPOINT is
missing (src/app/main.go lines 43 and 64). -/
def requiredEndpointMsg : String := "OTLP_ENDPOINT environment variable is required"

/-- Embeds newOTelTUIExporter (src/app/main.go lines 416-435; identical in
src/unnamed/part_001 lines 26-45): fail with requiredEndpointMsg when
OTLP_ENDPOINT resolves to the empty string, otherwise defer to
otlptracegrpc.New (modelled by the argument grpcNew) and wrap its error.  On
success the constructed exporter is represented by the endpoint it was built
with. -/
def newOTelTUIExporter (env : Option String) (grpcNew : String → Except String Unit) :
    Except String String :=
  let endpoint := osGetenv env
  if endpoint = "" then .error requiredEndpointMsg
  else
    match grpcNew endpoint with
    | .ok _ => .ok endpoint
    | .error e => .error ("failed to create trace exporter: " ++ e)

/-- Embeds newOTelMetricExporter (src/app/main.go lines 437-456): same shape
as newOTelTUIExporter with otlpmetricgrpc.New and its own wrap message. -/
def newOTelMetricExporter (env : Option String) (grpcNew : String → Except String Unit) :
    Except String String :=
  let endpoint := osGetenv env
  if endpoint = "" then .error requiredEndpointMsg
  else
    match grpcNew endpoint with
    | .ok _ => .ok endpoint
    | .error e => .error ("failed to create metric exporter: " ++ e)

/-- Embeds the exporter-construction prefix of main (src/app/main.go lines
793-805): a failure of either constructor makes main abort via log.Fatalf
with the corresponding format string, before any server state is set up. -/
def mainStartup (env : Option String) (grpcTrace grpcMetric : String → Except String Unit) :
    Except String Unit :=
  match newOTelTUIExporter env grpcTrace with
  | .error e => .error ("failed to create exporter: " ++ e)
  | .ok _ =>
    match newOTelMetricExporter env grpcMetric with
    | .error e => .error ("failed to create metric exporter: " ++ e)
    | .ok _ => .ok ()

/-- Default collector endpoint of the nginx entrypoint script
(src/unnamed/part_000 line 5). -/
def defaultOtelExporterEndpoint : String := "host.docker.internal:4317"

/-- The shell expansion : $\x7bOTEL_EXPORTER_ENDPOINT:="host.docker.internal:4317"\x7d
(src/unnamed/part_000 line 5): with the colon modifier the default is used
both when the variable is unset and when it is set to the empty string. -/
def resolveOtelExporterEndpoint (env : Option String) : String :=
  match env with
  | none => defaultOtelExporterEndpoint
  | some v => if v = "" then defaultOtelExporterEndpoint else v

/-- A segment of the nginx.conf.template: literal text or a shell-style
variable reference. -/
inductive TemplateSeg where
  | lit (s : String)
  | var (n : String)
deriving DecidableEq

/-- envsubst invoked with the shell-format argument listing exactly
OTEL_EXPORTER_ENDPOINT (src/unnamed/part_000 line 8): only that variable is
replaced; any other variable reference is left as its literal text. -/
def envsubstSeg (value : String) : TemplateSeg → String
  | .lit s => s
  | .var n => if n = "OTEL_EXPORTER_ENDPOINT" then value else "$\x7b" ++ n ++ "\x7d"

/-- The entrypoint's production of /etc/nginx/nginx.conf (src/unnamed/part_000
lines 5-8): resolve the endpoint, then substitute it through the template. -/
def renderNginxConf (env : Option String) (template : List TemplateSeg) : String :=
  String.join (template.map (envsubstSeg (resolveOtelExporterEndpoint env)))

/-- Constraint on the outcome of the select in getCPUFanSpeedHandler: a
received value must be one the producer goroutine sent, i.e. a fanSpeedSample
of some rand.Intn(1000) draw; the closed and empty outcomes carry no value. -/
def ChanValueOK : ChanRecv → Prop
  | .received v => ∃ r : Nat, r < 1000 ∧ v = fanSpeedSample r
  | .closedChan => True
  | .empty => True

/-! Shared helper lemmas. -/

/-- The producer trace written out: five sends then the close. -/
theorem fanProducerTrace_eq (speeds : Nat → Int) :
    fanProducerTrace speeds =
      [.send (speeds 0), .send (speeds 1), .send (speeds 2), .send (speeds 3),
       .send (speeds 4), .closeChan] := by
  simp [fanProducerTrace, producerLoopEvents]

/-- Every natural number is a reachable connection count, via repeated
simulateConnect. -/
theorem reachableConn_natCast (n : Nat) : ReachableConn (n : Int) := by
  induction n with
  | zero => exact .start
  | succ k ih =>
      have h : ((k + 1 : Nat) : Int) = simulateConnectStep (k : Int) := by
        simp [simulateConnectStep]
      rw [h]
      exact .connect ih

/-- String append acts as list append on the underlying character data. -/
theorem string_data_append (s t : String) : (s ++ t).data = s.data ++ t.data := by
  cases s; cases t; rfl

/-- Strings whose character data have different heads are different. -/
theorem string_ne_of_head_ne (s t : String) (h : s.data.head? ≠ t.data.head?) : s ≠ t :=
  fun he => h (by rw [he])

/-- The head of an append is the head of a nonempty left part. -/
theorem string_head_append (s t : String) (c : Char) (h : s.data.head? = some c) :
    (s ++ t).data.head? = some c := by
  rw [string_data_append]
  cases hs : s.data with
  | nil => rw [hs] at h; exact absurd h (by simp)
  | cons a l =>
      rw [hs] at h
      simp only [List.head?] at h
      rw [List.cons_append]
      simpa using h

/-- A wrapped gRPC error message, which starts with 'f', is never the
missing-endpoint message, which starts with 'O'. -/
theorem wrap_ne_required (p e : String) (hp : p.data.head? = some 'f') :
    p ++ e ≠ requiredEndpointMsg := by
  apply string_ne_of_head_ne
  rw [string_head_append p e 'f' hp]
  decide

/-! Claim theorems. -/

/-- C1 counterexample: the state 101 is reachable (by 101 simulateConnect
calls from the initial 0), and it violates the claimed invariant
0 <= activeConnections <= 100. -/
theorem C1_counterexample :
    ReachableConn 101 ∧ ¬((0 : Int) ≤ 101 ∧ (101 : Int) ≤ 100) := by
  constructor
  · exact_mod_cast reachableConn_natCast 101
  · decide

/-- C1 amended: every reachable activeConnections value is nonnegative, and
both the background simulator step and simulateDisconnect preserve the
interval [0, 100]; simulateConnect, however, increments without an upper
clamp, so the upper bound 100 is not an invariant of all three operations. -/
theorem C1_amended :
    (∀ s : Int, ReachableConn s → 0 ≤ s) ∧
    (∀ (s : Int) (r : Nat), r < 16 → 0 ≤ s → s ≤ 100 →
        0 ≤ connSimStep s r ∧ connSimStep s r ≤ 100) ∧
    (∀ s : Int, 0 ≤ s → s ≤ 100 →
        0 ≤ simulateDisconnectStep s ∧ simulateDisconnectStep s ≤ 100) := by
  refine ⟨?_, ?_, ?_⟩
  · intro s h
    induction h with
    | start => norm_num
    | connect _ ih => simp only [simulateConnectStep]; omega
    | disconnect _ ih => simp only [simulateDisconnectStep]; split_ifs <;> omega
    | background r hr _ ih =>
        simp only [connSimStep, connSimChange]; split_ifs <;> omega
  · intro s r _hr _h0 _h1
    simp only [connSimStep, connSimChange]; split_ifs <;> omega
  · intro s h0 h1
    simp only [simulateDisconnectStep]; split_ifs <;> omega

/-- C1 witness: the amended theorem applied at concrete inputs. -/
theorem C1_witness :
    0 ≤ (0 : Int) ∧
    (0 ≤ connSimStep 50 7 ∧ connSimStep 50 7 ≤ 100) ∧
    (0 ≤ simulateDisconnectStep 0 ∧ simulateDisconnectStep 0 ≤ 100) := by
  obtain ⟨h1, h2, h3⟩ := C1_amended
  exact ⟨h1 0 .start, h2 50 7 (by decide) (by decide) (by decide),
    h3 0 (by decide) (by decide)⟩

/-- C2: the fan-speed producer goroutine performs exactly five push
iterations — its channel trace is exactly five sends (the values of
iterations 0 through 4) followed by the close of the channel. -/
theorem C2_confirmed (speeds : Nat → Int) :
    fanProducerTrace speeds =
      [.send (speeds 0), .send (speeds 1), .send (speeds 2), .send (speeds 3),
       .send (speeds 4), .closeChan] :=
  fanProducerTrace_eq speeds

/-- C3: one iteration of the background connection simulator adds a random
change lying in [-5, 10] and then clamps the sum into [0, 100]. -/
theorem C3_confirmed (s : Int) (r : Nat) (hr : r < 16) :
    (-5 ≤ connSimChange r ∧ connSimChange r ≤ 10) ∧
    connSimStep s r = min 100 (max 0 (s + connSimChange r)) := by
  constructor
  · simp only [connSimChange]; omega
  · simp only [connSimStep, connSimChange]; split_ifs <;> omega

/-- C3 witness: the iteration theorem at the concrete state 98 and draw 15. -/
theorem C3_witness :
    ((-5 ≤ connSimChange 15 ∧ connSimChange 15 ≤ 10) ∧
      connSimStep 98 15 = min 100 (max 0 (98 + connSimChange 15))) :=
  C3_confirmed 98 15 (by decide)

/-- C4: getError starts the span "getError", sets its status to Error with
message "Internal Server Error", records an error on it, and responds with
HTTP 500 and the fixed JSON body with the "error" and "message" keys. -/
theorem C4_confirmed :
    getError.1.name = "getError" ∧
    getError.1.status = .statusError "Internal Server Error" ∧
    getError.1.recordedErrors ≠ [] ∧
    getError.2.status = 500 ∧
    getError.2.body.lookup "error" = some (.str "Internal Server Error") ∧
    getError.2.body.lookup "message"
      = some (.str "This is a sample 500 error endpoint for testing OpenTelemetry") := by
  refine ⟨rfl, rfl, by decide, rfl, rfl, rfl⟩

/-- C5: getHello responds with HTTP 200 and the JSON body whose single
"message" key is "Hello, <name>!", where <name> is the "name" query parameter
when non-empty and "World" otherwise. -/
theorem C5_confirmed (nameParam : String) :
    (getHello nameParam).2.2.status = 200 ∧
    (getHello nameParam).2.2.body =
      [("message",
        .str ("Hello, " ++ (if nameParam = "" then "World" else nameParam) ++ "!"))] := by
  constructor <;> simp [getHello]

/-- C6: addItem adds exactly +1 and removeItem exactly -1 to the items
up/down counter when the instrument is non-nil (and 0 otherwise); neither
handler changes activeConnections, currentMemoryUsage, or the fan-speed
channel; each responds with HTTP 200 and its fixed JSON body. -/
theorem C6_confirmed (hasCounter : Bool) (s : AppState) :
    (addItem hasCounter s).1.itemsCounterValue
        = s.itemsCounterValue + (if hasCounter then 1 else 0) ∧
    (addItem hasCounter s).1.activeConnections = s.activeConnections ∧
    (addItem hasCounter s).1.currentMemoryUsage = s.currentMemoryUsage ∧
    (addItem hasCounter s).1.fanSpeedBuffer = s.fanSpeedBuffer ∧
    (addItem hasCounter s).1.fanSpeedClosed = s.fanSpeedClosed ∧
    (addItem hasCounter s).2.2.status = 200 ∧
    (addItem hasCounter s).2.2.body =
      [("message", .str "Item added successfully"), ("action", .str "increment")] ∧
    (removeItem hasCounter s).1.itemsCounterValue
        = s.itemsCounterValue - (if hasCounter then 1 else 0) ∧
    (removeItem hasCounter s).1.activeConnections = s.activeConnections ∧
    (removeItem hasCounter s).1.currentMemoryUsage = s.currentMemoryUsage ∧
    (removeItem hasCounter s).1.fanSpeedBuffer = s.fanSpeedBuffer ∧
    (removeItem hasCounter s).1.fanSpeedClosed = s.fanSpeedClosed ∧
    (removeItem hasCounter s).2.2.status = 200 ∧
    (removeItem hasCounter s).2.2.body =
      [("message", .str "Item removed successfully"), ("action", .str "decrement")] := by
  cases hasCounter <;> simp [addItem, removeItem]

/-- C7: the entrypoint resolves OTEL_EXPORTER_ENDPOINT to
"host.docker.internal:4317" when the variable is unset (the shell's colon
modifier also applies the default to an empty value), passes any non-empty
value through unchanged, and renders nginx.conf by substituting exactly that
one variable into the template, leaving every other variable reference as
literal text. -/
theorem C7_confirmed :
    resolveOtelExporterEndpoint none = "host.docker.internal:4317" ∧
    (∀ v : String, v ≠ "" → resolveOtelExporterEndpoint (some v) = v) ∧
    (∀ env : Option String,
        envsubstSeg (resolveOtelExporterEndpoint env) (.var "OTEL_EXPORTER_ENDPOINT")
          = resolveOtelExporterEndpoint env) ∧
    (∀ (env : Option String) (n : String), n ≠ "OTEL_EXPORTER_ENDPOINT" →
        envsubstSeg (resolveOtelExporterEndpoint env) (.var n) = "$\x7b" ++ n ++ "\x7d") ∧
    (∀ (env : Option String) (template : List TemplateSeg),
        renderNginxConf env template
          = String.join (template.map (envsubstSeg (resolveOtelExporterEndpoint env)))) := by
  refine ⟨rfl, ?_, ?_, ?_, fun env template => rfl⟩
  · intro v hv
    simp [resolveOtelExporterEndpoint, hv]
  · intro env
    simp [envsubstSeg]
  · intro env n hn
    simp [envsubstSeg, hn]

/-- C7 witness: the resolution and substitution facts at concrete inputs. -/
theorem C7_witness :
    resolveOtelExporterEndpoint (some "collector:4317") = "collector:4317" ∧
    envsubstSeg (resolveOtelExporterEndpoint none) (.var "server_name")
      = "$\x7b" ++ "server_name" ++ "\x7d" := by
  have h := C7_confirmed
  exact ⟨h.2.1 "collector:4317" (by decide), h.2.2.2.1 none "server_name" (by decide)⟩

/-- C8: each exporter constructor returns the required-endpoint error exactly
when OTLP_ENDPOINT is unset or empty (a wrapped gRPC failure never produces
that message), and in that case main aborts at startup with log.Fatalf. -/
theorem C8_confirmed (env : Option String) (grpcTrace grpcMetric : String → Except String Unit) :
    (newOTelTUIExporter env grpcTrace = .error requiredEndpointMsg ↔
        env = none ∨ env = some "") ∧
    (newOTelMetricExporter env grpcMetric = .error requiredEndpointMsg ↔
        env = none ∨ env = some "") ∧
    ((env = none ∨ env = some "") →
        mainStartup env grpcTrace grpcMetric
          = .error ("failed to create exporter: " ++ requiredEndpointMsg)) := by
  have hempty : osGetenv env = "" ↔ env = none ∨ env = some "" := by
    cases env with
    | none => simp [osGetenv]
    | some v => simp [osGetenv]
  refine ⟨?_, ?_, ?_⟩
  · rw [← hempty]
    simp only [newOTelTUIExporter]
    by_cases h : osGetenv env = ""
    · simp [h]
    · rw [if_neg h]
      cases hg : grpcTrace (osGetenv env) with
      | ok u => simp [h]
      | error e =>
          simp [h, wrap_ne_required "failed to create trace exporter: " e (by decide)]
  · rw [← hempty]
    simp only [newOTelMetricExporter]
    by_cases h : osGetenv env = ""
    · simp [h]
    · rw [if_neg h]
      cases hg : grpcMetric (osGetenv env) with
      | ok u => simp [h]
      | error e =>
          simp [h, wrap_ne_required "failed to create metric exporter: " e (by decide)]
  · intro henv
    have h0 : osGetenv env = "" := hempty.mpr henv
    simp [mainStartup, newOTelTUIExporter, h0]

/-- C8 witness: with OTLP_ENDPOINT unset, both constructors fail with the
required-endpoint message and startup aborts. -/
theorem C8_witness :
    newOTelTUIExporter none (fun _ => .ok ()) = .error requiredEndpointMsg ∧
    newOTelMetricExporter none (fun _ => .ok ()) = .error requiredEndpointMsg ∧
    mainStartup none (fun _ => .ok ()) (fun _ => .ok ())
      = .error ("failed to create exporter: " ++ requiredEndpointMsg) := by
  have h := C8_confirmed none (fun _ => .ok ()) (fun _ => .ok ())
  exact ⟨h.1.mpr (.inl rfl), h.2.1.mpr (.inl rfl), h.2.2 (.inl rfl)⟩

/-- A received channel value that is some fanSpeedSample below 1000 satisfies
the channel constraint. -/
theorem chanValueOK_received (v : Int) (rr : Nat) (h1 : rr < 1000)
    (h2 : v = fanSpeedSample rr) : ChanValueOK (.received v) :=
  ⟨rr, h1, h2⟩

/-- C9: in all three branches of getCPUFanSpeedHandler the returned fanSpeed
lies in [1500, 2499] and is the value carried by the "fanSpeed" key of the
JSON response; moreover every value the producer goroutine sends satisfies
the received-branch hypothesis. -/
theorem C9_confirmed (recv : ChanRecv) (r : Nat) (hr : r < 1000)
    (hrecv : ChanValueOK recv) :
    (1500 ≤ (getCPUFanSpeedHandler recv r).1 ∧ (getCPUFanSpeedHandler recv r).1 ≤ 2499) ∧
    (getCPUFanSpeedHandler recv r).2.body.lookup "fanSpeed"
      = some (.int (getCPUFanSpeedHandler recv r).1) ∧
    (∀ (rs : Nat → Nat), (∀ i, rs i < 1000) →
        ∀ v : Int, FanEvent.send v ∈ fanProducerTrace (fun i => fanSpeedSample (rs i)) →
          ChanValueOK (.received v)) := by
  refine ⟨?_, ?_, ?_⟩
  · cases recv with
    | received v =>
        simp only [ChanValueOK] at hrecv
        obtain ⟨rv, hrv, hveq⟩ := hrecv
        subst hveq
        simp only [getCPUFanSpeedHandler, fanSpeedSample]
        omega
    | closedChan => simp only [getCPUFanSpeedHandler, fanSpeedSample]; omega
    | empty => simp only [getCPUFanSpeedHandler, fanSpeedSample]; omega
  · cases recv <;> rfl
  · intro rs hbound v hv
    rw [fanProducerTrace_eq] at hv
    simp only [List.mem_cons, List.not_mem_nil, or_false, FanEvent.send.injEq] at hv
    rcases hv with h | h | h | h | h | h
    · exact chanValueOK_received v (rs 0) (hbound 0) h
    · exact chanValueOK_received v (rs 1) (hbound 1) h
    · exact chanValueOK_received v (rs 2) (hbound 2) h
    · exact chanValueOK_received v (rs 3) (hbound 3) h
    · exact chanValueOK_received v (rs 4) (hbound 4) h
    · exact absurd h (by simp)

/-- C9 witness: the bound at a concrete received value and at the empty
branch with a concrete draw. -/
theorem C9_witness :
    (1500 ≤ (getCPUFanSpeedHandler (.received (fanSpeedSample 250)) 0).1 ∧
      (getCPUFanSpeedHandler (.received (fanSpeedSample 250)) 0).1 ≤ 2499) ∧
    (getCPUFanSpeedHandler (.received (fanSpeedSample 250)) 0).2.body.lookup "fanSpeed"
      = some (.int (getCPUFanSpeedHandler (.received (fanSpeedSample 250)) 0).1) := by
  have h := C9_confirmed (.received (fanSpeedSample 250)) 0 (by decide)
    (chanValueOK_received _ 250 (by decide) rfl)
  exact ⟨h.1, h.2.1⟩

/-- C10: the latency chosen by the three-tier branch of callExternalAPI lies
in [50, 9999] milliseconds, and the duration_ms field of the JSON response is
exactly that latency in whole milliseconds. -/
theorem C10_confirmed (randValue : Rat) (r1 r2 r3 : Nat)
    (h1 : r1 < 950) (h2 : r2 < 4000) (h3 : r3 < 5000) :
    (50 ≤ externalAPILatencyMs randValue r1 r2 r3 ∧
      externalAPILatencyMs randValue r1 r2 r3 ≤ 9999) ∧
    (callExternalAPI randValue r1 r2 r3).2.body =
      [("message", .str "External API call completed successfully"),
       ("duration_ms", .int (externalAPILatencyMs randValue r1 r2 r3 : Int)),
       ("status", .str "success")] := by
  have hms : durationMilliseconds
      ((externalAPILatencyMs randValue r1 r2 r3 : Int) * millisecondNs)
      = (externalAPILatencyMs randValue r1 r2 r3 : Int) := by
    simp only [durationMilliseconds, millisecondNs]
    exact Int.mul_ediv_cancel _ (by norm_num)
  constructor
  · simp only [externalAPILatencyMs]; split_ifs <;> omega
  · simp [callExternalAPI, hms]

/-- C10 witness: the latency theorem at a concrete fast-branch input. -/
theorem C10_witness :
    50 ≤ externalAPILatencyMs (1/4) 0 0 0 ∧ externalAPILatencyMs (1/4) 0 0 0 ≤ 9999 := by
  have h := C10_confirmed (1/4) 0 0 0 (by decide) (by decide) (by decide)
  exact h.1
